import Mathlib

/-!
Verification of the compilation-orchestration layer of `src/compiler.cc`
(multi-tier compiler: tier selection, CompilationJob state machine,
optimized-code cache, and the CompileOptimized orchestration).

The C++ code is mutably stateful; the embedding passes the mutated heap
objects (`JSFunction`, its `FeedbackVector`, the `CompilationJob`) explicitly.
`DCHECK`s are modelled as `Option`-failure (`none` = fatal contract
violation); tier-backend results (parse, Prepare/Execute/Finalize
implementations) are inputs, since the backends are external collaborators.
-/

namespace V8

/-- Kinds of code artifacts relevant to this layer: `OPTIMIZED_FUNCTION` is
the optimizing tier's output, `FUNCTION` is unoptimized (baseline) code,
`BUILTIN` covers trampolines such as `InterpreterEntryTrampoline`. -/
inductive CodeKind
  | OPTIMIZED_FUNCTION
  | FUNCTION
  | BUILTIN
deriving DecidableEq, Repr

/-- A code object: an identity, its kind, and whether it has since been
marked for deoptimization. -/
structure Code where
  id : Nat
  kind : CodeKind
  marked_for_deoptimization : Bool
deriving DecidableEq, Repr

/-- Bailout reasons used by the orchestration layer in `src/compiler.cc`. -/
inductive BailoutReason
  | kNoReason
  | kFunctionBeingDebugged
  | kOptimizationDisabledForTest
  | kOptimizationDisabled
  | kBailedOutDueToDependencyChange
deriving DecidableEq, Repr

/-- `CompilationJob::State` (states of the per-attempt state machine). -/
inductive JobState
  | kReadyToPrepare
  | kReadyToExecute
  | kReadyToFinalize
  | kSucceeded
  | kFailed
deriving DecidableEq, Repr

/-- `CompilationJob::Status` (result of one phase call). -/
inductive Status
  | SUCCEEDED
  | FAILED
deriving DecidableEq, Repr

/-- `ConcurrencyMode` of a `CompileOptimized` request. -/
inductive ConcurrencyMode
  | kConcurrent
  | kNotConcurrent
deriving DecidableEq, Repr

/-- `OptimizationMarker` values used by this layer. -/
inductive OptimizationMarker
  | kInOptimizationQueue
deriving DecidableEq, Repr

/-- The per-function feedback vector; its `optimized_code` slot is the
optimized code cache for the "normal" (non-OSR) entry. -/
structure FeedbackVector where
  optimized_code : Option Code
  profiler_ticks : Nat
deriving DecidableEq, Repr

/-- `SharedFunctionInfo` fields read by the orchestration layer
(`src/compiler.cc`). `code` is the baseline code installed on the shared
function info; `passes_turbo_filter` stands for
`PassesFilter(FLAG_turbo_filter)`, whose string matching is external. -/
structure SharedFunctionInfo where
  is_compiled : Bool
  code : Code
  has_bytecode_array : Bool
  optimization_disabled : Bool
  disable_optimization_reason : BailoutReason
  has_break_info : Bool
  passes_turbo_filter : Bool
deriving DecidableEq, Repr

/-- A closure (`JSFunction`): shares a `SharedFunctionInfo`, owns the
currently installed code and the optimization marker.
`has_feedback_vector` models `feedback_vector_cell()->value()->IsFeedbackVector()`;
`is_interpreted` models `JSFunction::IsInterpreted()`. -/
structure JSFunction where
  shared : SharedFunctionInfo
  has_feedback_vector : Bool
  feedback_vector : FeedbackVector
  code : Code
  optimization_marker : Option OptimizationMarker
  is_interpreted : Bool
deriving DecidableEq, Repr

/-- `CompilationInfo` fields read by the orchestration layer. `code` is the
artifact the optimizing backend produces (read at finalize time);
`dependencies_has_aborted` models `dependencies()->HasAborted()`. -/
structure CompilationInfo where
  osr_ast_id : Option Nat
  is_function_context_specializing : Bool
  is_frame_specializing : Bool
  is_optimizing_from_bytecode : Bool
  dependencies_has_aborted : Bool
  bailout_reason : BailoutReason
  code : Code
deriving DecidableEq, Repr

/-- A `CompilationJob`: the phase state plus its owned `CompilationInfo`. -/
structure CompilationJob where
  state : JobState
  compilation_info : CompilationInfo
deriving DecidableEq, Repr

/-- Modelled from the spec: `FeedbackVector::SetOptimizedCode` lives in
`feedback-vector.h/.cc`, which is outside `src/`; per the spec the cache
`Insert` attaches the code to the descriptor's single optimized-code slot. -/
def FeedbackVector.SetOptimizedCode (v : FeedbackVector) (code : Code) :
    FeedbackVector :=
  { v with optimized_code := some code }

/-- Modelled from the spec: `FeedbackVector::ClearOptimizedCode` lives
outside `src/`; per the spec, `Clear` unconditionally drops the slot and
resets the profiler-tick counter. -/
def FeedbackVector.ClearOptimizedCode (v : FeedbackVector) : FeedbackVector :=
  { v with optimized_code := none, profiler_ticks := 0 }

/-- Modelled from the spec: `FeedbackVector::EvictOptimizedCodeMarkedForDeoptimization`
lives outside `src/`; per the spec, lookup evicts any cached entry that has
since been marked for deoptimization. -/
def FeedbackVector.EvictOptimizedCodeMarkedForDeoptimization
    (v : FeedbackVector) : FeedbackVector :=
  match v.optimized_code with
  | some c =>
    if c.marked_for_deoptimization then { v with optimized_code := none } else v
  | none => v

/-- `GetCodeFromOptimizedCodeCache` (src/compiler.cc): for a non-OSR request
with a real feedback vector, evict deoptimized entries, then return the
remaining cached code if any.  The heap mutation performed by eviction is
returned as the updated closure. -/
def GetCodeFromOptimizedCodeCache (function : JSFunction)
    (osr_ast_id : Option Nat) : Option Code × JSFunction :=
  if osr_ast_id = none then
    if function.has_feedback_vector then
      let v :=
        function.feedback_vector.EvictOptimizedCodeMarkedForDeoptimization
      let function := { function with feedback_vector := v }
      match v.optimized_code with
      | some code => (some code, function)
      | none => (none, function)
    else (none, function)
  else (none, function)

/-- `ClearOptimizedCodeCache` (src/compiler.cc): only a non-OSR compile
clears the closure's feedback-vector slot. -/
def ClearOptimizedCodeCache (compilation_info : CompilationInfo)
    (function : JSFunction) : JSFunction :=
  if compilation_info.osr_ast_id = none then
    { function with
        feedback_vector := function.feedback_vector.ClearOptimizedCode }
  else function

/-- `InsertCodeIntoOptimizedCodeCache` (src/compiler.cc): nothing to do
unless the code is an `OPTIMIZED_FUNCTION`; function-context-specialized
code is never shared, so the cache is cleared instead; otherwise a non-OSR
compile stores the code in the feedback-vector slot. -/
def InsertCodeIntoOptimizedCodeCache (compilation_info : CompilationInfo)
    (function : JSFunction) : JSFunction :=
  if compilation_info.code.kind ≠ CodeKind.OPTIMIZED_FUNCTION then function
  else if compilation_info.is_function_context_specializing then
    ClearOptimizedCodeCache compilation_info function
  else if compilation_info.osr_ast_id = none then
    { function with
        feedback_vector :=
          function.feedback_vector.SetOptimizedCode compilation_info.code }
  else function

/-- Modelled from the spec: `CompilationInfo::RetryOptimization` lives in
`compilation-info.h` (outside `src/`); per the spec it records the reason on
the `CompilationInfo` and leaves the descriptor eligible for a future
attempt. -/
def CompilationInfo.RetryOptimization (info : CompilationInfo)
    (reason : BailoutReason) : CompilationInfo :=
  { info with bailout_reason := reason }

/-- Modelled from the spec: `CompilationInfo::AbortOptimization` lives in
`compilation-info.h` (outside `src/`); per the spec it records the reason on
the `CompilationInfo` (it additionally marks the descriptor so the function
is never attempted again at this tier, which no claim here observes). -/
def CompilationInfo.AbortOptimization (info : CompilationInfo)
    (reason : BailoutReason) : CompilationInfo :=
  { info with bailout_reason := reason }

/-- Modelled from the spec: `CompilationJob::UpdateState` is defined in
`compiler.h` (outside `src/`); per the spec's transition table, a
`SUCCEEDED` phase moves the job to the given next state and a failing phase
moves it to `kFailed`. -/
def CompilationJob.UpdateState (job : CompilationJob) (status : Status)
    (next_state : JobState) : Status × CompilationJob :=
  if status = Status.SUCCEEDED then (Status.SUCCEEDED, { job with state := next_state })
  else (Status.FAILED, { job with state := JobState.kFailed })

/-- `CompilationJob::PrepareJob` (src/compiler.cc): requires state
`kReadyToPrepare` (`DCHECK`, modelled as `none` = fatal contract violation),
then delegates to the tier-specific `PrepareJobImpl` (its `Status` is the
`impl` input) and updates the state. -/
def CompilationJob.PrepareJob (job : CompilationJob) (impl : Status) :
    Option (Status × CompilationJob) :=
  if job.state = JobState.kReadyToPrepare then
    some (job.UpdateState impl JobState.kReadyToExecute)
  else none

/-- `CompilationJob::ExecuteJob` (src/compiler.cc): requires state
`kReadyToExecute`, then delegates to `ExecuteJobImpl` and updates the state. -/
def CompilationJob.ExecuteJob (job : CompilationJob) (impl : Status) :
    Option (Status × CompilationJob) :=
  if job.state = JobState.kReadyToExecute then
    some (job.UpdateState impl JobState.kReadyToFinalize)
  else none

/-- `CompilationJob::FinalizeJob` (src/compiler.cc): `DCHECK`s that the
dependency set has not aborted and that the state is `kReadyToFinalize`,
then delegates to `FinalizeJobImpl` and updates the state. -/
def CompilationJob.FinalizeJob (job : CompilationJob) (impl : Status) :
    Option (Status × CompilationJob) :=
  if job.compilation_info.dependencies_has_aborted then none
  else if job.state = JobState.kReadyToFinalize then
    some (job.UpdateState impl JobState.kSucceeded)
  else none

/-- `CompilationJob::RetryOptimization` (src/compiler.cc): records the
reason on the `CompilationInfo` and forces the state to `kFailed`,
returning `FAILED`. -/
def CompilationJob.RetryOptimization (job : CompilationJob)
    (reason : BailoutReason) : Status × CompilationJob :=
  (Status.FAILED,
   { job with
       state := JobState.kFailed,
       compilation_info := job.compilation_info.RetryOptimization reason })

/-- `CompilationJob::AbortOptimization` (src/compiler.cc): records the
reason on the `CompilationInfo` and forces the state to `kFailed`,
returning `FAILED`. -/
def CompilationJob.AbortOptimization (job : CompilationJob)
    (reason : BailoutReason) : Status × CompilationJob :=
  (Status.FAILED,
   { job with
       state := JobState.kFailed,
       compilation_info := job.compilation_info.AbortOptimization reason })

/-- Properties of a function literal read by the unoptimized tier selector:
`must_use_ignition` models `literal->must_use_ignition()` and
`scope_asm_function` models `literal->scope()->asm_function()`. -/
structure FunctionLiteral where
  must_use_ignition : Bool
  scope_asm_function : Bool
deriving DecidableEq, Repr

/-- Process-wide flags read by the unoptimized tier selection
(`FLAG_stress_fullcodegen`, `FLAG_validate_asm`, `FLAG_stress_validate_asm`). -/
structure TierFlags where
  stress_fullcodegen : Bool
  validate_asm : Bool
  stress_validate_asm : Bool
deriving DecidableEq, Repr

/-- `ShouldUseFullCodegen` (src/compiler.cc): code that must use Ignition
never uses full-codegen; asm.js functions use full-codegen; otherwise the
stress flag decides. -/
def ShouldUseFullCodegen (flags : TierFlags) (literal : FunctionLiteral) :
    Bool :=
  if literal.must_use_ignition then false
  else if literal.scope_asm_function then true
  else flags.stress_fullcodegen

/-- The unoptimized compilation backends this layer can pick:
`FullCodegen` is the legacy baseline backend, `Ignition` the bytecode
interpreter, `AsmWasm` the asm.js-to-wasm pipeline. -/
inductive UnoptimizedTier
  | AsmWasm
  | FullCodegen
  | Ignition
deriving DecidableEq, Repr

/-- `GetUnoptimizedCompilationJob` (src/compiler.cc), restricted to which
backend's job it constructs. -/
def GetUnoptimizedJobTier (flags : TierFlags) (literal : FunctionLiteral) :
    UnoptimizedTier :=
  if ShouldUseFullCodegen flags literal then UnoptimizedTier.FullCodegen
  else UnoptimizedTier.Ignition

/-- `UseAsmWasm` (src/compiler.cc): asm.js validation must be enabled, a
previously broken module is off limits, debug compiles fall back; the
stress flag validates everything, else the "use asm" directive
(`scope->asm_module()`) decides. -/
def UseAsmWasm (flags : TierFlags) (scope_asm_module : Bool)
    (shared_is_null : Bool) (is_asm_wasm_broken : Bool) (is_debug : Bool) :
    Bool :=
  if ¬flags.validate_asm then false
  else if ¬shared_is_null ∧ is_asm_wasm_broken then false
  else if is_debug then false
  else if flags.stress_validate_asm then true
  else scope_asm_module

/-- `GenerateUnoptimizedCode` (src/compiler.cc), restricted to which backend
produces the installed code: when `UseAsmWasm` holds, the asm.js job is run
first (`asm_job_succeeds` is the external validation/compile outcome) and on
failure control falls through to the standard unoptimized job selection. -/
def GenerateUnoptimizedCodeTier (flags : TierFlags) (scope_asm_module : Bool)
    (shared_is_null : Bool) (is_asm_wasm_broken : Bool) (is_debug : Bool)
    (literal : FunctionLiteral) (asm_job_succeeds : Bool) : UnoptimizedTier :=
  if UseAsmWasm flags scope_asm_module shared_is_null is_asm_wasm_broken
      is_debug ∧ asm_job_succeeds then
    UnoptimizedTier.AsmWasm
  else GetUnoptimizedJobTier flags literal

/-- Results of the external collaborators a single optimizing compile
consults: `parse_and_analyze_ok` is `Compiler::ParseAndAnalyze`, and
`prepare`/`execute`/`finalize` are the tier-specific
`PrepareJobImpl`/`ExecuteJobImpl`/`FinalizeJobImpl` outcomes. -/
structure BackendOutcome where
  parse_and_analyze_ok : Bool
  prepare : Status
  execute : Status
  finalize : Status
deriving DecidableEq, Repr

/-- Admission-check state read by `GetOptimizedCodeLater`:
`optimizing_compile_dispatcher()->IsQueueAvailable()` and
`heap()->HighMemoryPressure()`. -/
structure DispatcherEnv where
  queue_available : Bool
  high_memory_pressure : Bool
deriving DecidableEq, Repr

/-- Configuration of the `CompilationInfo` that
`compiler::Pipeline::NewCompilationJob` (an external collaborator)
constructs: the specialization flags it enables, whether its dependency set
has aborted by finalize time, and the code artifact its backend produces. -/
structure PipelineSpec where
  is_function_context_specializing : Bool
  is_frame_specializing : Bool
  dependencies_has_aborted : Bool
  produced_code : Code
deriving DecidableEq, Repr

/-- The builtin returned for an interpreted closure queued for concurrent
optimization (`BUILTIN_CODE(isolate, InterpreterEntryTrampoline)`). -/
def InterpreterEntryTrampoline : Code :=
  { id := 1001, kind := CodeKind.BUILTIN, marked_for_deoptimization := false }

/-- The builtin returned for a full-codegen closure queued for concurrent
optimization (`BUILTIN_CODE(isolate, CheckOptimizationMarker)`). -/
def CheckOptimizationMarker : Code :=
  { id := 1002, kind := CodeKind.BUILTIN, marked_for_deoptimization := false }

/-- `GetOptimizedCodeNow` (src/compiler.cc): parse unless optimizing from
bytecode, then run Prepare, Execute and Finalize synchronously; on success
insert the result into the optimized code cache and report true. -/
def GetOptimizedCodeNow (job : CompilationJob) (function : JSFunction)
    (b : BackendOutcome) : Option (Bool × CompilationJob × JSFunction) :=
  if ¬job.compilation_info.is_optimizing_from_bytecode ∧
      ¬b.parse_and_analyze_ok then
    some (false, job, function)
  else
    match job.PrepareJob b.prepare with
    | none => none
    | some (Status.FAILED, job) => some (false, job, function)
    | some (Status.SUCCEEDED, job) =>
      match job.ExecuteJob b.execute with
      | none => none
      | some (Status.FAILED, job) => some (false, job, function)
      | some (Status.SUCCEEDED, job) =>
        match job.FinalizeJob b.finalize with
        | none => none
        | some (Status.FAILED, job) => some (false, job, function)
        | some (Status.SUCCEEDED, job) =>
          some (true, job,
                InsertCodeIntoOptimizedCodeCache job.compilation_info function)

/-- `GetOptimizedCodeLater` (src/compiler.cc): admission checks (queue
availability, then memory pressure) fail the request before any work; then
parse unless optimizing from bytecode, run Prepare synchronously on the
calling thread, and queue the job for concurrent optimization
(`true` = the job was handed to the dispatcher). -/
def GetOptimizedCodeLater (job : CompilationJob) (env : DispatcherEnv)
    (b : BackendOutcome) : Option (Bool × CompilationJob) :=
  if ¬env.queue_available then some (false, job)
  else if env.high_memory_pressure then some (false, job)
  else if ¬job.compilation_info.is_optimizing_from_bytecode ∧
      ¬b.parse_and_analyze_ok then
    some (false, job)
  else
    match job.PrepareJob b.prepare with
    | none => none
    | some (Status.FAILED, job) => some (false, job)
    | some (Status.SUCCEEDED, job) => some (true, job)

/-- Everything observable about one `GetOptimizedCode` run: the returned
`MaybeHandle<Code>`, the mutated closure, whether
`compiler::Pipeline::NewCompilationJob` was invoked, the job released to the
background dispatcher (if any), and the final `CompilationInfo` of the
constructed job (`none` when no job was constructed). -/
structure OptimizeOutcome where
  result : Option Code
  function : JSFunction
  job_constructed : Bool
  job_retained : Option CompilationJob
  final_info : Option CompilationInfo
deriving DecidableEq, Repr

/-- `GetOptimizedCode` (src/compiler.cc): clear the optimization marker,
consult the optimized code cache, and on a miss (`DCHECK(shared->is_compiled())`)
reset profiler ticks, construct a pipeline job, run the eligibility checks
(breakpoints, `%NeverOptimizeFunction`, `FLAG_opt`/filter) aborting with the
specific reason, and otherwise run the job synchronously or hand it to the
dispatcher after a synchronous Prepare. -/
def GetOptimizedCode (function : JSFunction) (mode : ConcurrencyMode)
    (flag_opt : Bool) (env : DispatcherEnv) (pipeline : PipelineSpec)
    (b : BackendOutcome) (osr_ast_id : Option Nat) : Option OptimizeOutcome :=
  let function :=
    if function.optimization_marker.isSome then
      { function with optimization_marker := none }
    else function
  match GetCodeFromOptimizedCodeCache function osr_ast_id with
  | (some cached_code, function) =>
    some { result := some cached_code, function := function,
           job_constructed := false, job_retained := none, final_info := none }
  | (none, function) =>
    if ¬function.shared.is_compiled then none
    else
      let function :=
        { function with
            feedback_vector :=
              { function.feedback_vector with profiler_ticks := 0 } }
      let info : CompilationInfo :=
        { osr_ast_id := osr_ast_id,
          is_function_context_specializing :=
            pipeline.is_function_context_specializing,
          is_frame_specializing := pipeline.is_frame_specializing,
          is_optimizing_from_bytecode := false,
          dependencies_has_aborted := pipeline.dependencies_has_aborted,
          bailout_reason := BailoutReason.kNoReason,
          code := pipeline.produced_code }
      if function.shared.has_break_info then
        some { result := none, function := function, job_constructed := true,
               job_retained := none,
               final_info :=
                 some (info.AbortOptimization
                   BailoutReason.kFunctionBeingDebugged) }
      else if function.shared.optimization_disabled ∧
          function.shared.disable_optimization_reason =
            BailoutReason.kOptimizationDisabledForTest then
        some { result := none, function := function, job_constructed := true,
               job_retained := none,
               final_info :=
                 some (info.AbortOptimization
                   BailoutReason.kOptimizationDisabledForTest) }
      else if ¬flag_opt ∨ ¬function.shared.passes_turbo_filter then
        some { result := none, function := function, job_constructed := true,
               job_retained := none,
               final_info :=
                 some (info.AbortOptimization
                   BailoutReason.kOptimizationDisabled) }
      else
        let info :=
          if function.shared.has_bytecode_array then
            { info with is_optimizing_from_bytecode := true }
          else info
        let job : CompilationJob :=
          { state := JobState.kReadyToPrepare, compilation_info := info }
        match mode with
        | ConcurrencyMode.kConcurrent =>
          match GetOptimizedCodeLater job env b with
          | none => none
          | some (true, job) =>
            let function :=
              { function with
                  optimization_marker :=
                    some OptimizationMarker.kInOptimizationQueue }
            some { result :=
                     some (if function.is_interpreted then
                             InterpreterEntryTrampoline
                           else CheckOptimizationMarker),
                   function := function, job_constructed := true,
                   job_retained := some job,
                   final_info := some job.compilation_info }
          | some (false, job) =>
            some { result := none, function := function,
                   job_constructed := true, job_retained := none,
                   final_info := some job.compilation_info }
        | ConcurrencyMode.kNotConcurrent =>
          match GetOptimizedCodeNow job function b with
          | none => none
          | some (true, job, function) =>
            some { result := some job.compilation_info.code,
                   function := function, job_constructed := true,
                   job_retained := none,
                   final_info := some job.compilation_info }
          | some (false, job, function) =>
            some { result := none, function := function,
                   job_constructed := true, job_retained := none,
                   final_info := some job.compilation_info }

/-- `JSFunction::IsOptimized` as read by `Compiler::CompileOptimized`
(the installed code is an optimizing-tier artifact). -/
def JSFunction.IsOptimized (function : JSFunction) : Bool :=
  function.code.kind = CodeKind.OPTIMIZED_FUNCTION

/-- `Compiler::CompileOptimized` (src/compiler.cc): a closure already on
optimized code is a no-op; otherwise run `GetOptimizedCode` and install the
resulting code — or, when optimization produced nothing, the shared
function info's existing unoptimized code (`DCHECK`ed to exist) — onto the
closure, and report success. -/
def Compiler.CompileOptimized (function : JSFunction) (mode : ConcurrencyMode)
    (flag_opt : Bool) (env : DispatcherEnv) (pipeline : PipelineSpec)
    (b : BackendOutcome) : Option (Bool × JSFunction × OptimizeOutcome) :=
  if function.IsOptimized then
    some (true, function,
          { result := none, function := function, job_constructed := false,
            job_retained := none, final_info := none })
  else
    match GetOptimizedCode function mode flag_opt env pipeline b none with
    | none => none
    | some outcome =>
      match outcome.result with
      | some code => some (true, { outcome.function with code := code }, outcome)
      | none =>
        if ¬outcome.function.shared.is_compiled then none
        else
          some (true,
                { outcome.function with code := outcome.function.shared.code },
                outcome)

/-- `FinalizeOptimizedCompilationJob` (src/compiler.cc): back on the owning
thread, reset profiler ticks (`DCHECK(!shared->HasBreakInfo())`), and when
the job is ready to finalize re-validate: optimization disabled or an
aborted dependency set goes through `RetryOptimization`; a successful
`FinalizeJob` installs the code into the cache and onto the closure; every
failure path reinstalls the shared function info's code on the closure and
clears a pending `kInOptimizationQueue` marker. -/
def FinalizeOptimizedCompilationJob (job : CompilationJob)
    (function : JSFunction) (finalize_impl : Status) :
    Option (Status × CompilationJob × JSFunction) :=
  let function :=
    { function with
        feedback_vector :=
          { function.feedback_vector with profiler_ticks := 0 } }
  if function.shared.has_break_info then none
  else
    let failPath : CompilationJob → (Status × CompilationJob × JSFunction) :=
      fun job =>
        let function := { function with code := function.shared.code }
        let function :=
          if function.optimization_marker =
              some OptimizationMarker.kInOptimizationQueue then
            { function with optimization_marker := none }
          else function
        (Status.FAILED, job, function)
    if job.state = JobState.kReadyToFinalize then
      if function.shared.optimization_disabled then
        some (failPath
          (job.RetryOptimization BailoutReason.kOptimizationDisabled).2)
      else if job.compilation_info.dependencies_has_aborted then
        some (failPath
          (job.RetryOptimization
            BailoutReason.kBailedOutDueToDependencyChange).2)
      else
        match job.FinalizeJob finalize_impl with
        | none => none
        | some (Status.SUCCEEDED, job) =>
          let function :=
            InsertCodeIntoOptimizedCodeCache job.compilation_info function
          let function := { function with code := job.compilation_info.code }
          some (Status.SUCCEEDED, job, function)
        | some (Status.FAILED, job) => some (failPath job)
    else if job.state = JobState.kFailed then some (failPath job)
    else none

/-! ### Sample heap values used by witnesses and counterexamples -/

/-- A baseline (unoptimized) code artifact. -/
def baselineCode : Code :=
  { id := 1, kind := CodeKind.FUNCTION, marked_for_deoptimization := false }

/-- An optimizing-tier code artifact, valid (not marked for deopt). -/
def optimizedArtifact : Code :=
  { id := 2, kind := CodeKind.OPTIMIZED_FUNCTION,
    marked_for_deoptimization := false }

/-- An optimizing-tier artifact that has been marked for deoptimization. -/
def deoptimizedArtifact : Code :=
  { id := 3, kind := CodeKind.OPTIMIZED_FUNCTION,
    marked_for_deoptimization := true }

/-- A second valid optimized artifact, distinct from `optimizedArtifact`. -/
def cachedArtifact : Code :=
  { id := 4, kind := CodeKind.OPTIMIZED_FUNCTION,
    marked_for_deoptimization := false }

/-- A compiled, fully optimizable shared function info. -/
def sampleShared : SharedFunctionInfo :=
  { is_compiled := true, code := baselineCode, has_bytecode_array := true,
    optimization_disabled := false,
    disable_optimization_reason := BailoutReason.kNoReason,
    has_break_info := false, passes_turbo_filter := true }

/-- A closure on baseline code with an empty optimized-code cache slot. -/
def sampleFunction : JSFunction :=
  { shared := sampleShared, has_feedback_vector := true,
    feedback_vector := { optimized_code := none, profiler_ticks := 7 },
    code := baselineCode, optimization_marker := none, is_interpreted := true }

/-- A dispatcher with queue capacity and no memory pressure. -/
def sampleEnv : DispatcherEnv :=
  { queue_available := true, high_memory_pressure := false }

/-- A non-specialized, non-aborted pipeline producing `optimizedArtifact`. -/
def samplePipeline : PipelineSpec :=
  { is_function_context_specializing := false, is_frame_specializing := false,
    dependencies_has_aborted := false, produced_code := optimizedArtifact }

/-- Backend collaborators that all succeed. -/
def allOkBackend : BackendOutcome :=
  { parse_and_analyze_ok := true, prepare := Status.SUCCEEDED,
    execute := Status.SUCCEEDED, finalize := Status.SUCCEEDED }

/-! ### Helper lemmas -/

/-- An OSR-targeted insert never changes the optimized-code cache slot. -/
theorem insert_osr_slot_unchanged (info : CompilationInfo) (fn : JSFunction)
    (hosr : info.osr_ast_id ≠ none) :
    (InsertCodeIntoOptimizedCodeCache info fn).feedback_vector.optimized_code
      = fn.feedback_vector.optimized_code := by
  unfold InsertCodeIntoOptimizedCodeCache ClearOptimizedCodeCache
  split
  · rfl
  · split
    · simp [hosr]
    · simp [hosr]

/-- Eviction never leaves a deoptimization-marked entry in the slot. -/
theorem evict_leaves_no_marked (v : FeedbackVector) (c : Code)
    (h : v.EvictOptimizedCodeMarkedForDeoptimization.optimized_code = some c) :
    c.marked_for_deoptimization = false := by
  unfold FeedbackVector.EvictOptimizedCodeMarkedForDeoptimization at h
  cases hv : v.optimized_code with
  | none => simp [hv] at h
  | some c0 =>
    rw [hv] at h
    by_cases hm : c0.marked_for_deoptimization
    · simp [hm] at h
    · simp [hm, hv] at h
      subst h
      simpa using hm

/-! ### Claims -/

/-- C4: For every successful optimizing compile whose OSR target is not
"none", the shared optimized-code cache slot for the function's descriptor
is never written by that compile; only compiles with no OSR target update
the slot. -/
theorem osr_compiles_never_populate_cache (info : CompilationInfo)
    (fn : JSFunction) (hosr : info.osr_ast_id ≠ none) :
    (InsertCodeIntoOptimizedCodeCache info fn).feedback_vector.optimized_code
      = fn.feedback_vector.optimized_code ∧
    ∀ (info' : CompilationInfo) (fn' : JSFunction),
      (InsertCodeIntoOptimizedCodeCache info'
          fn').feedback_vector.optimized_code
        ≠ fn'.feedback_vector.optimized_code →
      info'.osr_ast_id = none := by
  refine ⟨insert_osr_slot_unchanged info fn hosr, ?_⟩
  intro info' fn' hch
  by_contra hosr'
  exact hch (insert_osr_slot_unchanged info' fn' hosr')

/-- Witness for C4: inserting an OSR-targeted optimized artifact leaves a
populated cache slot untouched. -/
theorem osr_compiles_never_populate_cache_witness :
    (InsertCodeIntoOptimizedCodeCache
        { osr_ast_id := some 5, is_function_context_specializing := false,
          is_frame_specializing := false, is_optimizing_from_bytecode := true,
          dependencies_has_aborted := false,
          bailout_reason := BailoutReason.kNoReason,
          code := optimizedArtifact }
        { sampleFunction with
            feedback_vector :=
              { optimized_code := some cachedArtifact, profiler_ticks := 3 }
        }).feedback_vector.optimized_code
      = some cachedArtifact :=
  (osr_compiles_never_populate_cache _ _ (by decide)).1

/-- C6: For every cached optimized-code entry that has been marked for
deoptimization, the cache lookup evicts the entry and reports a miss; a
lookup never returns code that is marked for deoptimization. -/
theorem lookup_evicts_deoptimized_entries (fn : JSFunction) (c : Code)
    (hfv : fn.has_feedback_vector = true)
    (hslot : fn.feedback_vector.optimized_code = some c)
    (hmark : c.marked_for_deoptimization = true) :
    ((GetCodeFromOptimizedCodeCache fn none).1 = none ∧
     (GetCodeFromOptimizedCodeCache fn
         none).2.feedback_vector.optimized_code = none) ∧
    ∀ (g : JSFunction) (osr : Option Nat) (c' : Code) (g' : JSFunction),
      GetCodeFromOptimizedCodeCache g osr = (some c', g') →
      c'.marked_for_deoptimization = false := by
  constructor
  · unfold GetCodeFromOptimizedCodeCache
      FeedbackVector.EvictOptimizedCodeMarkedForDeoptimization
    simp [hfv, hslot, hmark]
  · intro g osr c' g' h
    unfold GetCodeFromOptimizedCodeCache at h
    by_cases hosr : osr = none
    · simp [hosr] at h
      by_cases hg : g.has_feedback_vector
      · simp [hg] at h
        cases he :
            g.feedback_vector.EvictOptimizedCodeMarkedForDeoptimization.optimized_code with
        | none => simp [he] at h
        | some c0 =>
          simp [he] at h
          exact h.1 ▸ evict_leaves_no_marked _ _ he
      · simp [hg] at h
    · simp [hosr] at h

/-- Witness for C6: a stale (deopt-marked) cached entry is evicted and the
lookup misses. -/
theorem lookup_evicts_deoptimized_entries_witness :
    (GetCodeFromOptimizedCodeCache
        { sampleFunction with
            feedback_vector :=
              { optimized_code := some deoptimizedArtifact,
                profiler_ticks := 3 } }
        none).1 = none :=
  ((lookup_evicts_deoptimized_entries _ deoptimizedArtifact (by decide)
      (by decide) (by decide)).1).1

/-- A context-specialized compilation attempt targeting OSR entry, whose
backend produced a genuine optimized artifact. -/
def contextSpecializedOsrInfo : CompilationInfo :=
  { osr_ast_id := some 7, is_function_context_specializing := true,
    is_frame_specializing := false, is_optimizing_from_bytecode := true,
    dependencies_has_aborted := false,
    bailout_reason := BailoutReason.kNoReason, code := optimizedArtifact }

/-- A closure whose cache slot currently holds `cachedArtifact`. -/
def functionWithCachedEntry : JSFunction :=
  { sampleFunction with
      feedback_vector :=
        { optimized_code := some cachedArtifact, profiler_ticks := 3 } }

/-- Counterexample to C3 as stated: a context-specialized compile with an
OSR target does NOT clear the existing cache entry — `ClearOptimizedCodeCache`
only clears for non-OSR compiles, so the stale entry survives. -/
theorem context_specialized_osr_insert_leaves_entry :
    (InsertCodeIntoOptimizedCodeCache contextSpecializedOsrInfo
        functionWithCachedEntry).feedback_vector.optimized_code
      = some cachedArtifact ∧
    some cachedArtifact ≠ (none : Option Code) := by
  constructor
  · rfl
  · simp

/-- C3 (amended): Inserting into the optimized code cache is a no-op
whenever the produced code is not an optimized-tier artifact; and whenever
the compile was context-specialized (or frame-specialized — frame
specialization implies context specialization), instead of inserting, any
existing cache entry for the function is cleared if the compile has no OSR
target, while a context-specialized OSR compile leaves the cache (and the
closure) entirely untouched. -/
theorem insert_noop_or_clears_for_specialized (info : CompilationInfo)
    (fn : JSFunction)
    (hframe : info.is_frame_specializing = true →
      info.is_function_context_specializing = true) :
    (info.code.kind ≠ CodeKind.OPTIMIZED_FUNCTION →
       InsertCodeIntoOptimizedCodeCache info fn = fn) ∧
    (info.code.kind = CodeKind.OPTIMIZED_FUNCTION →
     (info.is_function_context_specializing = true ∨
      info.is_frame_specializing = true) →
       (info.osr_ast_id = none →
          (InsertCodeIntoOptimizedCodeCache
              info fn).feedback_vector.optimized_code = none) ∧
       (info.osr_ast_id ≠ none →
          InsertCodeIntoOptimizedCodeCache info fn = fn)) := by
  constructor
  · intro hk
    unfold InsertCodeIntoOptimizedCodeCache
    simp [hk]
  · intro hk hspec
    have hcs : info.is_function_context_specializing = true := by
      rcases hspec with h | h
      · exact h
      · exact hframe h
    constructor
    · intro hosr
      unfold InsertCodeIntoOptimizedCodeCache ClearOptimizedCodeCache
      simp [hk, hcs, hosr, FeedbackVector.ClearOptimizedCode]
    · intro hosr
      unfold InsertCodeIntoOptimizedCodeCache ClearOptimizedCodeCache
      simp [hk, hcs, hosr]

/-- Witness for C3 (amended): a context-specialized non-OSR compile clears
the populated cache slot. -/
theorem insert_noop_or_clears_for_specialized_witness :
    (InsertCodeIntoOptimizedCodeCache
        { contextSpecializedOsrInfo with osr_ast_id := none }
        functionWithCachedEntry).feedback_vector.optimized_code = none :=
  ((insert_noop_or_clears_for_specialized
      { contextSpecializedOsrInfo with osr_ast_id := none }
      functionWithCachedEntry (by decide)).2 (by decide)
      (Or.inl (by decide))).1 rfl

/-- C2: The unoptimized-tier selector evaluates its rules in order: a
literal flagged as requiring the bytecode tier gets the bytecode
interpreter (Ignition); otherwise a literal in a validated asm-like module
(its scope's `asm_function` flag set by the validator) gets the legacy
baseline backend (full-codegen); otherwise the global stress flag forces
full-codegen; otherwise Ignition.  Separately, when the asm-wasm module job
fails, `GenerateUnoptimizedCode` falls back to exactly this standard
selection. -/
theorem unoptimized_tier_selection_rules (flags : TierFlags)
    (lit : FunctionLiteral) (scope_asm_module : Bool) (shared_is_null : Bool)
    (is_asm_wasm_broken : Bool) (is_debug : Bool) :
    (lit.must_use_ignition = true →
       GetUnoptimizedJobTier flags lit = UnoptimizedTier.Ignition) ∧
    (lit.must_use_ignition = false → lit.scope_asm_function = true →
       GetUnoptimizedJobTier flags lit = UnoptimizedTier.FullCodegen) ∧
    (lit.must_use_ignition = false → lit.scope_asm_function = false →
       flags.stress_fullcodegen = true →
       GetUnoptimizedJobTier flags lit = UnoptimizedTier.FullCodegen) ∧
    (lit.must_use_ignition = false → lit.scope_asm_function = false →
       flags.stress_fullcodegen = false →
       GetUnoptimizedJobTier flags lit = UnoptimizedTier.Ignition) ∧
    (∀ asm_job_succeeds : Bool, asm_job_succeeds = false →
       GenerateUnoptimizedCodeTier flags scope_asm_module shared_is_null
           is_asm_wasm_broken is_debug lit asm_job_succeeds
         = GetUnoptimizedJobTier flags lit) := by
  refine ⟨?_, ?_, ?_, ?_, ?_⟩
  · intro h1
    unfold GetUnoptimizedJobTier ShouldUseFullCodegen
    simp [h1]
  · intro h1 h2
    unfold GetUnoptimizedJobTier ShouldUseFullCodegen
    simp [h1, h2]
  · intro h1 h2 h3
    unfold GetUnoptimizedJobTier ShouldUseFullCodegen
    simp [h1, h2, h3]
  · intro h1 h2 h3
    unfold GetUnoptimizedJobTier ShouldUseFullCodegen
    simp [h1, h2, h3]
  · intro a ha
    unfold GenerateUnoptimizedCodeTier
    simp [ha]

/-- Witness for C2: a generator-style literal that must use Ignition is
selected for the bytecode interpreter, and with the asm job failing the
fallback is the standard selection. -/
theorem unoptimized_tier_selection_rules_witness :
    GetUnoptimizedJobTier
        { stress_fullcodegen := true, validate_asm := true,
          stress_validate_asm := false }
        { must_use_ignition := true, scope_asm_function := false }
      = UnoptimizedTier.Ignition ∧
    GenerateUnoptimizedCodeTier
        { stress_fullcodegen := false, validate_asm := true,
          stress_validate_asm := false }
        true true false false
        { must_use_ignition := false, scope_asm_function := true } false
      = GetUnoptimizedJobTier
          { stress_fullcodegen := false, validate_asm := true,
            stress_validate_asm := false }
          { must_use_ignition := false, scope_asm_function := true } :=
  ⟨(unoptimized_tier_selection_rules _ _ true true false false).1 rfl,
   (unoptimized_tier_selection_rules _ _ true true false
       false).2.2.2.2 false rfl⟩

/-- C9: CompilationJob phase transitions are strictly linear and
single-shot: Prepare moves `kReadyToPrepare` to `kReadyToExecute` or
`kFailed`, Execute moves `kReadyToExecute` to `kReadyToFinalize` or
`kFailed`, Finalize moves `kReadyToFinalize` to `kSucceeded` or `kFailed`;
calling a phase in any other state is a fatal contract violation (modelled
as `none`); and `RetryOptimization`/`AbortOptimization` force the state to
`kFailed` while recording the reason on the CompilationInfo. -/
theorem compilation_job_linear_single_shot (job : CompilationJob)
    (impl : Status) (reason : BailoutReason) :
    (job.state = JobState.kReadyToPrepare →
       job.PrepareJob impl = some (impl,
         { job with state :=
             if impl = Status.SUCCEEDED then JobState.kReadyToExecute
             else JobState.kFailed })) ∧
    (job.state ≠ JobState.kReadyToPrepare → job.PrepareJob impl = none) ∧
    (job.state = JobState.kReadyToExecute →
       job.ExecuteJob impl = some (impl,
         { job with state :=
             if impl = Status.SUCCEEDED then JobState.kReadyToFinalize
             else JobState.kFailed })) ∧
    (job.state ≠ JobState.kReadyToExecute → job.ExecuteJob impl = none) ∧
    (job.compilation_info.dependencies_has_aborted = false →
     job.state = JobState.kReadyToFinalize →
       job.FinalizeJob impl = some (impl,
         { job with state :=
             if impl = Status.SUCCEEDED then JobState.kSucceeded
             else JobState.kFailed })) ∧
    (job.compilation_info.dependencies_has_aborted = false →
     job.state ≠ JobState.kReadyToFinalize → job.FinalizeJob impl = none) ∧
    ((job.RetryOptimization reason).1 = Status.FAILED ∧
     (job.RetryOptimization reason).2.state = JobState.kFailed ∧
     (job.RetryOptimization
         reason).2.compilation_info.bailout_reason = reason) ∧
    ((job.AbortOptimization reason).1 = Status.FAILED ∧
     (job.AbortOptimization reason).2.state = JobState.kFailed ∧
     (job.AbortOptimization
         reason).2.compilation_info.bailout_reason = reason) := by
  refine ⟨?_, ?_, ?_, ?_, ?_, ?_, ?_, ?_⟩
  · intro h
    unfold CompilationJob.PrepareJob CompilationJob.UpdateState
    cases impl <;> simp [h]
  · intro h
    unfold CompilationJob.PrepareJob
    simp [h]
  · intro h
    unfold CompilationJob.ExecuteJob CompilationJob.UpdateState
    cases impl <;> simp [h]
  · intro h
    unfold CompilationJob.ExecuteJob
    simp [h]
  · intro hd h
    unfold CompilationJob.FinalizeJob CompilationJob.UpdateState
    cases impl <;> simp [h, hd]
  · intro hd h
    unfold CompilationJob.FinalizeJob
    simp [h, hd]
  · unfold CompilationJob.RetryOptimization CompilationInfo.RetryOptimization
    simp
  · unfold CompilationJob.AbortOptimization CompilationInfo.AbortOptimization
    simp

/-- A freshly constructed optimizing job ready to be prepared. -/
def freshJob : CompilationJob :=
  { state := JobState.kReadyToPrepare,
    compilation_info :=
      { osr_ast_id := none, is_function_context_specializing := false,
        is_frame_specializing := false, is_optimizing_from_bytecode := true,
        dependencies_has_aborted := false,
        bailout_reason := BailoutReason.kNoReason,
        code := optimizedArtifact } }

/-- Witness for C9: a fresh job's successful Prepare moves it to
`kReadyToExecute`, Execute called out of order is fatal, and
`RetryOptimization` records the reason and forces `kFailed`. -/
theorem compilation_job_linear_single_shot_witness :
    freshJob.PrepareJob Status.SUCCEEDED
      = some (Status.SUCCEEDED,
          { freshJob with state := JobState.kReadyToExecute }) ∧
    freshJob.ExecuteJob Status.SUCCEEDED = none ∧
    (freshJob.RetryOptimization
        BailoutReason.kOptimizationDisabled).2.state = JobState.kFailed := by
  have h := compilation_job_linear_single_shot freshJob Status.SUCCEEDED
    BailoutReason.kOptimizationDisabled
  refine ⟨?_, ?_, h.2.2.2.2.2.2.1.2.1⟩
  · have h1 := h.1 rfl
    simpa using h1
  · exact h.2.2.2.1 (by decide)

/-- C1: For a concurrent-mode optimizing job left in `kReadyToFinalize` by
the background Execute phase, if at finalize time the descriptor has
optimization disabled or the job's dependency set has aborted, then
`FinalizeOptimizedCompilationJob` goes through `RetryOptimization` (the job
ends in `kFailed` with the corresponding retry reason recorded), installs
nothing into the optimized code cache, and installs the descriptor's
existing baseline code onto the closure. -/
theorem finalize_revalidation_retries_and_keeps_baseline
    (job : CompilationJob) (fn : JSFunction) (impl : Status)
    (hstate : job.state = JobState.kReadyToFinalize)
    (hbreak : fn.shared.has_break_info = false)
    (htrigger : fn.shared.optimization_disabled = true ∨
                job.compilation_info.dependencies_has_aborted = true) :
    (∃ r, FinalizeOptimizedCompilationJob job fn impl = some r) ∧
    ∀ st (job' : CompilationJob) (fn' : JSFunction),
      FinalizeOptimizedCompilationJob job fn impl = some (st, job', fn') →
      st = Status.FAILED ∧
      job'.state = JobState.kFailed ∧
      (fn.shared.optimization_disabled = true →
         job'.compilation_info.bailout_reason
           = BailoutReason.kOptimizationDisabled) ∧
      (fn.shared.optimization_disabled = false →
         job'.compilation_info.bailout_reason
           = BailoutReason.kBailedOutDueToDependencyChange) ∧
      fn'.feedback_vector.optimized_code
        = fn.feedback_vector.optimized_code ∧
      fn'.code = fn.shared.code := by
  have hdep : fn.shared.optimization_disabled = false →
      job.compilation_info.dependencies_has_aborted = true := by
    intro hod
    rcases htrigger with h | h
    · rw [hod] at h; exact absurd h (by simp)
    · exact h
  cases hod : fn.shared.optimization_disabled with
  | true =>
    constructor
    · rw [← Option.isSome_iff_exists]
      unfold FinalizeOptimizedCompilationJob
      simp [hbreak, hstate, hod]
    · intro st job' fn' h
      unfold FinalizeOptimizedCompilationJob at h
      simp [hbreak, hstate, hod, CompilationJob.RetryOptimization,
        CompilationInfo.RetryOptimization] at h
      obtain ⟨h1, h2, h3⟩ := h
      subst h1; subst h2; subst h3
      by_cases hm : fn.optimization_marker
          = some OptimizationMarker.kInOptimizationQueue <;>
        simp [hm, hod]
  | false =>
    have hdep' := hdep hod
    constructor
    · rw [← Option.isSome_iff_exists]
      unfold FinalizeOptimizedCompilationJob
      simp [hbreak, hstate, hod, hdep']
    · intro st job' fn' h
      unfold FinalizeOptimizedCompilationJob at h
      simp [hbreak, hstate, hod, hdep', CompilationJob.RetryOptimization,
        CompilationInfo.RetryOptimization] at h
      obtain ⟨h1, h2, h3⟩ := h
      subst h1; subst h2; subst h3
      by_cases hm : fn.optimization_marker
          = some OptimizationMarker.kInOptimizationQueue <;>
        simp [hm, hod]

/-- A background job that reached `kReadyToFinalize` but whose dependency
set has since aborted. -/
def abortedDepsJob : CompilationJob :=
  { state := JobState.kReadyToFinalize,
    compilation_info :=
      { freshJob.compilation_info with dependencies_has_aborted := true } }

/-- Witness for C1: finalizing a dependency-aborted background job produces
a result at all (and, by the theorem, a failing one). -/
theorem finalize_revalidation_retries_witness :
    ∃ r, FinalizeOptimizedCompilationJob abortedDepsJob sampleFunction
        Status.SUCCEEDED = some r :=
  (finalize_revalidation_retries_and_keeps_baseline abortedDepsJob
    sampleFunction Status.SUCCEEDED (by decide) (by decide)
    (Or.inr (by decide))).1

/-- Clearing the optimization marker only when present equals clearing it
unconditionally (structure eta). -/
theorem clear_marker_eq (f : JSFunction) :
    (if f.optimization_marker.isSome then
        { f with optimization_marker := none }
      else f)
      = { f with optimization_marker := none } := by
  cases hm : f.optimization_marker with
  | none =>
    simp only [hm, Option.isSome_none, Bool.false_eq_true, if_false]
    rw [← hm]
  | some m => simp [hm]

/-- A lookup on an empty slot misses and leaves the closure unchanged. -/
theorem lookup_miss_of_slot_none (f : JSFunction)
    (h : f.feedback_vector.optimized_code = none) :
    GetCodeFromOptimizedCodeCache f none = (none, f) := by
  unfold GetCodeFromOptimizedCodeCache
    FeedbackVector.EvictOptimizedCodeMarkedForDeoptimization
  by_cases hfv : f.has_feedback_vector
  · simp [hfv, h]
    rw [← hfv]
  · simp [hfv]

/-- A lookup on a live (not deopt-marked) entry hits and leaves the closure
unchanged. -/
theorem lookup_hit_of_live_entry (f : JSFunction) (c : Code)
    (hfv : f.has_feedback_vector = true)
    (h : f.feedback_vector.optimized_code = some c)
    (hnm : c.marked_for_deoptimization = false) :
    GetCodeFromOptimizedCodeCache f none = (some c, f) := by
  unfold GetCodeFromOptimizedCodeCache
    FeedbackVector.EvictOptimizedCodeMarkedForDeoptimization
  simp [hfv, h, hnm]
  rw [← hfv]

/-- Under a cache miss and any of the three eligibility bailouts,
`GetOptimizedCode` constructs the job, aborts it with the matching reason,
and returns no code. -/
theorem get_optimized_code_abort_eligibility (fn : JSFunction)
    (mode : ConcurrencyMode) (flag_opt : Bool) (env : DispatcherEnv)
    (pipeline : PipelineSpec) (b : BackendOutcome) (reason : BailoutReason)
    (hmiss : fn.feedback_vector.optimized_code = none)
    (hcompiled : fn.shared.is_compiled = true)
    (hcase :
      (fn.shared.has_break_info = true ∧
       reason = BailoutReason.kFunctionBeingDebugged) ∨
      (fn.shared.has_break_info = false ∧
       fn.shared.optimization_disabled = true ∧
       fn.shared.disable_optimization_reason
         = BailoutReason.kOptimizationDisabledForTest ∧
       reason = BailoutReason.kOptimizationDisabledForTest) ∨
      (fn.shared.has_break_info = false ∧
       ¬(fn.shared.optimization_disabled = true ∧
         fn.shared.disable_optimization_reason
           = BailoutReason.kOptimizationDisabledForTest) ∧
       (flag_opt = false ∨ fn.shared.passes_turbo_filter = false) ∧
       reason = BailoutReason.kOptimizationDisabled)) :
    GetOptimizedCode fn mode flag_opt env pipeline b none
      = some { result := none,
               function :=
                 { fn with
                     optimization_marker := none,
                     feedback_vector :=
                       { fn.feedback_vector with profiler_ticks := 0 } },
               job_constructed := true, job_retained := none,
               final_info := some
                 { osr_ast_id := none,
                   is_function_context_specializing :=
                     pipeline.is_function_context_specializing,
                   is_frame_specializing := pipeline.is_frame_specializing,
                   is_optimizing_from_bytecode := false,
                   dependencies_has_aborted :=
                     pipeline.dependencies_has_aborted,
                   bailout_reason := reason,
                   code := pipeline.produced_code } } := by
  unfold GetOptimizedCode
  rw [clear_marker_eq]
  simp only [lookup_miss_of_slot_none { fn with optimization_marker := none }
    (by simpa using hmiss)]
  rcases hcase with ⟨hbrk, hr⟩ | ⟨hbrk, hdis, hdr, hr⟩ | ⟨hbrk, hnd, hflt, hr⟩
  · subst hr
    simp [hcompiled, hbrk, CompilationInfo.AbortOptimization]
  · subst hr
    simp [hcompiled, hbrk, hdis, hdr, CompilationInfo.AbortOptimization]
  · subst hr
    rcases hflt with hflt | hflt <;>
      simp [hcompiled, hbrk, hnd, hflt, CompilationInfo.AbortOptimization]

/-- A closure whose function has a breakpoint attached. -/
def debuggedFunction : JSFunction :=
  { sampleFunction with shared := { sampleShared with has_break_info := true } }

/-- Counterexample to C7 as stated: for an ineligible function (breakpoint
attached), `GetOptimizedCode` DOES construct a CompilationJob
(`compiler::Pipeline::NewCompilationJob` runs before the eligibility
checks) even though the attempt then aborts and returns no code. -/
theorem ineligible_request_still_constructs_job :
    Option.map OptimizeOutcome.job_constructed
        (GetOptimizedCode debuggedFunction ConcurrencyMode.kNotConcurrent true
          sampleEnv samplePipeline allOkBackend none) = some true ∧
    Option.map OptimizeOutcome.result
        (GetOptimizedCode debuggedFunction ConcurrencyMode.kNotConcurrent true
          sampleEnv samplePipeline allOkBackend none) = some none := by
  constructor <;> rfl

/-- C7 (amended): Whenever CompileOptimized is requested for an ineligible
function — breakpoint attached, optimization permanently disabled for
testing, or optimizer disabled/filtered — the attempt aborts via
AbortOptimization recording the specific, distinguishable bailout reason
for that case, the (constructed but immediately discarded) CompilationJob
is neither run nor retained, and baseline code is left installed.  The
absence of compiled baseline code is a `DCHECK`ed precondition, not a
bailout case. -/
theorem ineligible_abort_records_reason_keeps_baseline (fn : JSFunction)
    (mode : ConcurrencyMode) (flag_opt : Bool) (env : DispatcherEnv)
    (pipeline : PipelineSpec) (b : BackendOutcome) (reason : BailoutReason)
    (hmiss : fn.feedback_vector.optimized_code = none)
    (hcompiled : fn.shared.is_compiled = true)
    (hnotopt : fn.code.kind ≠ CodeKind.OPTIMIZED_FUNCTION)
    (hcase :
      (fn.shared.has_break_info = true ∧
       reason = BailoutReason.kFunctionBeingDebugged) ∨
      (fn.shared.has_break_info = false ∧
       fn.shared.optimization_disabled = true ∧
       fn.shared.disable_optimization_reason
         = BailoutReason.kOptimizationDisabledForTest ∧
       reason = BailoutReason.kOptimizationDisabledForTest) ∨
      (fn.shared.has_break_info = false ∧
       ¬(fn.shared.optimization_disabled = true ∧
         fn.shared.disable_optimization_reason
           = BailoutReason.kOptimizationDisabledForTest) ∧
       (flag_opt = false ∨ fn.shared.passes_turbo_filter = false) ∧
       reason = BailoutReason.kOptimizationDisabled)) :
    (∃ r, Compiler.CompileOptimized fn mode flag_opt env pipeline b
        = some r) ∧
    ∀ ok (fn' : JSFunction) (out : OptimizeOutcome),
      Compiler.CompileOptimized fn mode flag_opt env pipeline b
        = some (ok, fn', out) →
      ok = true ∧ out.result = none ∧ out.job_retained = none ∧
      (∃ info, out.final_info = some info ∧
        info.bailout_reason = reason) ∧
      fn'.code = fn.shared.code := by
  have hno : fn.IsOptimized = false := by
    simp [JSFunction.IsOptimized, hnotopt]
  have habort := get_optimized_code_abort_eligibility fn mode flag_opt env
    pipeline b reason hmiss hcompiled hcase
  have hmain : Compiler.CompileOptimized fn mode flag_opt env pipeline b
      = some (true,
          { fn with
              optimization_marker := none,
              feedback_vector :=
                { fn.feedback_vector with profiler_ticks := 0 },
              code := fn.shared.code },
          { result := none,
            function :=
              { fn with
                  optimization_marker := none,
                  feedback_vector :=
                    { fn.feedback_vector with profiler_ticks := 0 } },
            job_constructed := true, job_retained := none,
            final_info := some
              { osr_ast_id := none,
                is_function_context_specializing :=
                  pipeline.is_function_context_specializing,
                is_frame_specializing := pipeline.is_frame_specializing,
                is_optimizing_from_bytecode := false,
                dependencies_has_aborted :=
                  pipeline.dependencies_has_aborted,
                bailout_reason := reason,
                code := pipeline.produced_code } }) := by
    unfold Compiler.CompileOptimized
    simp only [hno, Bool.false_eq_true, if_false, habort, hcompiled]
    simp
  refine ⟨⟨_, hmain⟩, ?_⟩
  intro ok fn' out h
  rw [hmain] at h
  injection h with h
  simp only [Prod.mk.injEq] at h
  obtain ⟨hok, hfn, hout⟩ := h
  subst hok; subst hfn; subst hout
  refine ⟨rfl, rfl, rfl, ⟨_, rfl, rfl⟩, rfl⟩

/-- Witness for C7 (amended): a breakpointed function's request aborts yet
still yields the successful fallback result. -/
theorem ineligible_abort_records_reason_witness :
    ∃ r, Compiler.CompileOptimized debuggedFunction
        ConcurrencyMode.kNotConcurrent true sampleEnv samplePipeline
        allOkBackend = some r :=
  (ineligible_abort_records_reason_keeps_baseline debuggedFunction
    ConcurrencyMode.kNotConcurrent true sampleEnv samplePipeline allOkBackend
    BailoutReason.kFunctionBeingDebugged (by decide) (by decide) (by decide)
    (Or.inl (by decide))).1

/-- A job handed to the dispatcher by `GetOptimizedCodeLater` has already
been prepared synchronously: it is in state `kReadyToExecute`. -/
theorem later_queued_job_prepared (job : CompilationJob) (env : DispatcherEnv)
    (b : BackendOutcome) (j : CompilationJob)
    (h : GetOptimizedCodeLater job env b = some (true, j)) :
    j.state = JobState.kReadyToExecute := by
  unfold GetOptimizedCodeLater at h
  split at h
  · simp at h
  split at h
  · simp at h
  split at h
  · simp at h
  split at h
  · simp at h
  · simp at h
  · next jq heq =>
    injection h with h
    injection h with h1 h2
    rw [← h2]
    unfold CompilationJob.PrepareJob CompilationJob.UpdateState at heq
    split at heq
    · split at heq
      · injection heq with heq
        injection heq with ha hb2
        rw [← hb2]
      · injection heq with heq
        injection heq with ha hb2
        exact absurd ha (by simp)
    · exact absurd heq (by simp)

/-- Any job retained (released to the background dispatcher) by
`GetOptimizedCode` is in state `kReadyToExecute` at handoff. -/
theorem retained_job_ready_to_execute (g : JSFunction)
    (mode : ConcurrencyMode) (fo : Bool) (env : DispatcherEnv)
    (p : PipelineSpec) (b : BackendOutcome) (osr : Option Nat)
    (out : OptimizeOutcome) (j : CompilationJob)
    (h : GetOptimizedCode g mode fo env p b osr = some out)
    (hj : out.job_retained = some j) :
    j.state = JobState.kReadyToExecute := by
  unfold GetOptimizedCode at h
  rw [clear_marker_eq] at h
  dsimp only at h
  rcases hlk : GetCodeFromOptimizedCodeCache
      { g with optimization_marker := none } osr with ⟨oc, f2⟩
  rw [hlk] at h
  cases oc with
  | some cached =>
    dsimp only at h
    injection h with h
    rw [← h] at hj
    simp at hj
  | none =>
    dsimp only at h
    split at h
    · exact absurd h (by simp)
    split at h
    · injection h with h; rw [← h] at hj; simp at hj
    split at h
    · injection h with h; rw [← h] at hj; simp at hj
    split at h
    · injection h with h; rw [← h] at hj; simp at hj
    cases mode with
    | kConcurrent =>
      dsimp only at h
      split at h
      · exact absurd h (by simp)
      · next jq heq =>
        injection h with h
        rw [← h] at hj
        simp only at hj
        injection hj with hj
        rw [← hj]
        exact later_queued_job_prepared _ env b _ heq
      · next jq heq =>
        injection h with h
        rw [← h] at hj
        simp at hj
    | kNotConcurrent =>
      dsimp only at h
      split at h
      · exact absurd h (by simp)
      · next jq f3 heq =>
        injection h with h
        rw [← h] at hj
        simp at hj
      · next jq f3 heq =>
        injection h with h
        rw [← h] at hj
        simp at hj

/-- Under a cache miss, full eligibility, and a failing admission check,
a concurrent `GetOptimizedCode` returns no code, retains no job, and leaves
the cache slot untouched. -/
theorem get_optimized_code_admission_failure (fn : JSFunction)
    (flag_opt : Bool) (env : DispatcherEnv) (pipeline : PipelineSpec)
    (b : BackendOutcome)
    (hmiss : fn.feedback_vector.optimized_code = none)
    (hcompiled : fn.shared.is_compiled = true)
    (hbreak : fn.shared.has_break_info = false)
    (hdis : fn.shared.optimization_disabled = false)
    (hopt : flag_opt = true)
    (hfilter : fn.shared.passes_turbo_filter = true)
    (hadm : env.queue_available = false ∨ env.high_memory_pressure = true) :
    GetOptimizedCode fn ConcurrencyMode.kConcurrent flag_opt env pipeline b
        none
      = some { result := none,
               function :=
                 { fn with
                     optimization_marker := none,
                     feedback_vector :=
                       { fn.feedback_vector with profiler_ticks := 0 } },
               job_constructed := true, job_retained := none,
               final_info := some
                 { osr_ast_id := none,
                   is_function_context_specializing :=
                     pipeline.is_function_context_specializing,
                   is_frame_specializing := pipeline.is_frame_specializing,
                   is_optimizing_from_bytecode :=
                     fn.shared.has_bytecode_array,
                   dependencies_has_aborted :=
                     pipeline.dependencies_has_aborted,
                   bailout_reason := BailoutReason.kNoReason,
                   code := pipeline.produced_code } } := by
  unfold GetOptimizedCode
  rw [clear_marker_eq]
  simp only [lookup_miss_of_slot_none { fn with optimization_marker := none }
    (by simpa using hmiss)]
  unfold GetOptimizedCodeLater
  rcases hadm with hq | hp
  · by_cases hbc : fn.shared.has_bytecode_array <;>
      simp [hcompiled, hbreak, hdis, hopt, hfilter, hq, hbc]
  · by_cases hq : env.queue_available <;>
      by_cases hbc : fn.shared.has_bytecode_array <;>
        simp [hcompiled, hbreak, hdis, hopt, hfilter, hq, hp, hbc]

/-- C8: In Concurrent mode, when the dispatcher queue is unavailable or the
heap reports high memory pressure, CompileOptimized degrades to "try
later": no optimized-code cache entry is mutated, no job object is
retained, and the closure remains on baseline code; moreover Prepare always
runs synchronously on the calling thread — any job handed to the dispatcher
is already in state `kReadyToExecute`. -/
theorem concurrent_admission_failure_degrades (fn : JSFunction)
    (flag_opt : Bool) (env : DispatcherEnv) (pipeline : PipelineSpec)
    (b : BackendOutcome)
    (hmiss : fn.feedback_vector.optimized_code = none)
    (hcompiled : fn.shared.is_compiled = true)
    (hnotopt : fn.code.kind ≠ CodeKind.OPTIMIZED_FUNCTION)
    (hbreak : fn.shared.has_break_info = false)
    (hdis : fn.shared.optimization_disabled = false)
    (hopt : flag_opt = true)
    (hfilter : fn.shared.passes_turbo_filter = true)
    (hadm : env.queue_available = false ∨ env.high_memory_pressure = true) :
    (∃ r, Compiler.CompileOptimized fn ConcurrencyMode.kConcurrent flag_opt
        env pipeline b = some r) ∧
    (∀ ok (fn' : JSFunction) (out : OptimizeOutcome),
       Compiler.CompileOptimized fn ConcurrencyMode.kConcurrent flag_opt env
           pipeline b = some (ok, fn', out) →
       ok = true ∧ out.result = none ∧ out.job_retained = none ∧
       fn'.feedback_vector.optimized_code = none ∧
       fn'.code = fn.shared.code) ∧
    (∀ (g : JSFunction) (fo : Bool) (env' : DispatcherEnv)
       (p' : PipelineSpec) (b' : BackendOutcome) (osr : Option Nat)
       (out : OptimizeOutcome) (j : CompilationJob),
       GetOptimizedCode g ConcurrencyMode.kConcurrent fo env' p' b' osr
         = some out →
       out.job_retained = some j →
       j.state = JobState.kReadyToExecute) := by
  have hno : fn.IsOptimized = false := by
    simp [JSFunction.IsOptimized, hnotopt]
  have hadmit := get_optimized_code_admission_failure fn flag_opt env
    pipeline b hmiss hcompiled hbreak hdis hopt hfilter hadm
  have hmain : Compiler.CompileOptimized fn ConcurrencyMode.kConcurrent
      flag_opt env pipeline b
      = some (true,
          { fn with
              optimization_marker := none,
              feedback_vector :=
                { fn.feedback_vector with profiler_ticks := 0 },
              code := fn.shared.code },
          { result := none,
            function :=
              { fn with
                  optimization_marker := none,
                  feedback_vector :=
                    { fn.feedback_vector with profiler_ticks := 0 } },
            job_constructed := true, job_retained := none,
            final_info := some
              { osr_ast_id := none,
                is_function_context_specializing :=
                  pipeline.is_function_context_specializing,
                is_frame_specializing := pipeline.is_frame_specializing,
                is_optimizing_from_bytecode := fn.shared.has_bytecode_array,
                dependencies_has_aborted := pipeline.dependencies_has_aborted,
                bailout_reason := BailoutReason.kNoReason,
                code := pipeline.produced_code } }) := by
    unfold Compiler.CompileOptimized
    simp only [hno, Bool.false_eq_true, if_false, hadmit, hcompiled]
    simp
  refine ⟨⟨_, hmain⟩, ?_, ?_⟩
  · intro ok fn' out h
    rw [hmain] at h
    injection h with h
    simp only [Prod.mk.injEq] at h
    obtain ⟨hok, hfn, hout⟩ := h
    subst hok; subst hfn; subst hout
    exact ⟨rfl, rfl, rfl, by simpa using hmiss, rfl⟩
  · intro g fo env' p' b' osr out j h hj
    exact retained_job_ready_to_execute g _ fo env' p' b' osr out j h hj

/-- A dispatcher whose queue reports unavailable. -/
def fullQueueEnv : DispatcherEnv :=
  { queue_available := false, high_memory_pressure := false }

/-- Witness for C8: with the queue unavailable the concurrent request still
completes (degrading to baseline). -/
theorem concurrent_admission_failure_degrades_witness :
    ∃ r, Compiler.CompileOptimized sampleFunction ConcurrencyMode.kConcurrent
        true fullQueueEnv samplePipeline allOkBackend = some r :=
  (concurrent_admission_failure_degrades sampleFunction true fullQueueEnv
    samplePipeline allOkBackend (by decide) (by decide) (by decide)
    (by decide) (by decide) rfl (by decide) (Or.inl (by decide))).1

/-- Cache insertion never touches the shared function info. -/
theorem insert_preserves_shared (i : CompilationInfo) (f : JSFunction) :
    (InsertCodeIntoOptimizedCodeCache i f).shared = f.shared := by
  unfold InsertCodeIntoOptimizedCodeCache ClearOptimizedCodeCache
  split
  · rfl
  · split
    · split <;> rfl
    · split <;> rfl

/-- Cache lookup never touches the shared function info. -/
theorem lookup_preserves_shared (f : JSFunction) (osr : Option Nat) :
    (GetCodeFromOptimizedCodeCache f osr).2.shared = f.shared := by
  unfold GetCodeFromOptimizedCodeCache
  split
  · split
    · dsimp only
      split <;> rfl
    · rfl
  · rfl

/-- A synchronous optimizing run never touches the shared function info. -/
theorem now_preserves_shared (job : CompilationJob) (f : JSFunction)
    (b : BackendOutcome) (ok : Bool) (j2 : CompilationJob) (f2 : JSFunction)
    (h : GetOptimizedCodeNow job f b = some (ok, j2, f2)) :
    f2.shared = f.shared := by
  unfold GetOptimizedCodeNow at h
  split at h
  · injection h with h
    simp only [Prod.mk.injEq] at h
    rw [← h.2.2]
  · split at h
    · exact absurd h (by simp)
    · injection h with h
      simp only [Prod.mk.injEq] at h
      rw [← h.2.2]
    · split at h
      · exact absurd h (by simp)
      · injection h with h
        simp only [Prod.mk.injEq] at h
        rw [← h.2.2]
      · split at h
        · exact absurd h (by simp)
        · injection h with h
          simp only [Prod.mk.injEq] at h
          rw [← h.2.2]
        · injection h with h
          simp only [Prod.mk.injEq] at h
          rw [← h.2.2]
          exact insert_preserves_shared _ _

/-- `GetOptimizedCode` never touches the shared function info. -/
theorem get_optimized_code_preserves_shared (g : JSFunction)
    (mode : ConcurrencyMode) (fo : Bool) (env : DispatcherEnv)
    (p : PipelineSpec) (b : BackendOutcome) (osr : Option Nat)
    (out : OptimizeOutcome)
    (h : GetOptimizedCode g mode fo env p b osr = some out) :
    out.function.shared = g.shared := by
  unfold GetOptimizedCode at h
  rw [clear_marker_eq] at h
  dsimp only at h
  rcases hlk : GetCodeFromOptimizedCodeCache
      { g with optimization_marker := none } osr with ⟨oc, f2⟩
  have hf2 : f2.shared = g.shared := by
    have hp := lookup_preserves_shared
      { g with optimization_marker := none } osr
    rw [hlk] at hp
    simpa using hp
  rw [hlk] at h
  cases oc with
  | some cached =>
    dsimp only at h
    injection h with h
    rw [← h]
    exact hf2
  | none =>
    dsimp only at h
    split at h
    · exact absurd h (by simp)
    split at h
    · injection h with h
      rw [← h]
      exact hf2
    split at h
    · injection h with h
      rw [← h]
      exact hf2
    split at h
    · injection h with h
      rw [← h]
      exact hf2
    cases mode with
    | kConcurrent =>
      dsimp only at h
      split at h
      · exact absurd h (by simp)
      · injection h with h
        rw [← h]
        exact hf2
      · injection h with h
        rw [← h]
        exact hf2
    | kNotConcurrent =>
      dsimp only at h
      split at h
      · exact absurd h (by simp)
      · next jq f3 heq =>
        injection h with h
        rw [← h]
        have hs := now_preserves_shared _ _ _ _ _ _ heq
        dsimp only [OptimizeOutcome.function]
        rw [hs]
        exact hf2
      · next jq f3 heq =>
        injection h with h
        rw [← h]
        have hs := now_preserves_shared _ _ _ _ _ _ heq
        dsimp only [OptimizeOutcome.function]
        rw [hs]
        exact hf2

/-- C10: `Compiler::CompileOptimized` always returns true: whenever
optimization does not produce optimized code, it installs the descriptor's
existing unoptimized code onto the closure and still reports success — the
public failure signal is never produced by this entry point. -/
theorem compile_optimized_always_reports_success (fn : JSFunction)
    (mode : ConcurrencyMode) (flag_opt : Bool) (env : DispatcherEnv)
    (pipeline : PipelineSpec) (b : BackendOutcome)
    (r : Bool × JSFunction × OptimizeOutcome)
    (h : Compiler.CompileOptimized fn mode flag_opt env pipeline b = some r) :
    r.1 = true ∧
    (r.2.2.result = none → fn.IsOptimized = false →
       r.2.1.code = fn.shared.code) := by
  unfold Compiler.CompileOptimized at h
  by_cases ho : fn.IsOptimized
  · rw [if_pos ho] at h
    injection h with h
    rw [← h]
    exact ⟨rfl, fun _ hfo => absurd hfo (by simp [ho])⟩
  · rw [if_neg ho] at h
    rcases hg : GetOptimizedCode fn mode flag_opt env pipeline b none
        with _ | out
    · rw [hg] at h
      exact absurd h (by simp)
    · rw [hg] at h
      dsimp only at h
      cases hres : out.result with
      | some code =>
        rw [hres] at h
        dsimp only at h
        injection h with h
        rw [← h]
        refine ⟨rfl, fun hnone _ => ?_⟩
        rw [hres] at hnone
        exact absurd hnone (by simp)
      | none =>
        rw [hres] at h
        dsimp only at h
        split at h
        · exact absurd h (by simp)
        · injection h with h
          rw [← h]
          refine ⟨rfl, fun _ _ => ?_⟩
          dsimp only
          rw [get_optimized_code_preserves_shared fn mode flag_opt env
            pipeline b none out hg]

/-- The concrete value `Compiler::CompileOptimized` produces for
`sampleFunction` when the concurrent queue is unavailable. -/
def admissionFailResult : Bool × JSFunction × OptimizeOutcome :=
  (true,
   { sampleFunction with
       feedback_vector := { optimized_code := none, profiler_ticks := 0 } },
   { result := none,
     function :=
       { sampleFunction with
           feedback_vector :=
             { optimized_code := none, profiler_ticks := 0 } },
     job_constructed := true, job_retained := none,
     final_info := some
       { osr_ast_id := none, is_function_context_specializing := false,
         is_frame_specializing := false, is_optimizing_from_bytecode := true,
         dependencies_has_aborted := false,
         bailout_reason := BailoutReason.kNoReason,
         code := optimizedArtifact } })

/-- Witness for C10: a request degraded by a full queue still reports
success. -/
theorem compile_optimized_always_reports_success_witness :
    admissionFailResult.1 = true :=
  (compile_optimized_always_reports_success sampleFunction
    ConcurrencyMode.kConcurrent true fullQueueEnv samplePipeline allOkBackend
    admissionFailResult (by decide)).1

/-- A live cache hit short-circuits `Compiler::CompileOptimized`: the
cached code is installed without constructing a job. -/
theorem compile_optimized_cache_hit (f : JSFunction) (mode : ConcurrencyMode)
    (fo : Bool) (env : DispatcherEnv) (p : PipelineSpec) (b : BackendOutcome)
    (c : Code)
    (hfv : f.has_feedback_vector = true)
    (hslot : f.feedback_vector.optimized_code = some c)
    (hnm : c.marked_for_deoptimization = false)
    (hnotopt : f.code.kind ≠ CodeKind.OPTIMIZED_FUNCTION) :
    Compiler.CompileOptimized f mode fo env p b
      = some (true, { f with optimization_marker := none, code := c },
          { result := some c,
            function := { f with optimization_marker := none },
            job_constructed := false, job_retained := none,
            final_info := none }) := by
  have hno : f.IsOptimized = false := by
    simp [JSFunction.IsOptimized, hnotopt]
  have hhit : GetOptimizedCode f mode fo env p b none
      = some { result := some c,
               function := { f with optimization_marker := none },
               job_constructed := false, job_retained := none,
               final_info := none } := by
    unfold GetOptimizedCode
    rw [clear_marker_eq]
    simp only [lookup_hit_of_live_entry { f with optimization_marker := none }
      c (by simpa using hfv) (by simpa using hslot) hnm]
  unfold Compiler.CompileOptimized
  rw [if_neg (by simp [hno]), hhit]

/-- Under a cache miss, full eligibility and all-succeeding backends, a
synchronous non-specialized non-OSR optimizing compile populates the cache
slot with the produced code and returns it. -/
theorem get_optimized_code_sync_success (fn : JSFunction) (flag_opt : Bool)
    (env : DispatcherEnv) (pipeline : PipelineSpec) (b : BackendOutcome)
    (hmiss : fn.feedback_vector.optimized_code = none)
    (hcompiled : fn.shared.is_compiled = true)
    (hbreak : fn.shared.has_break_info = false)
    (hdis : fn.shared.optimization_disabled = false)
    (hopt : flag_opt = true)
    (hfilter : fn.shared.passes_turbo_filter = true)
    (hparse : b.parse_and_analyze_ok = true)
    (hp : b.prepare = Status.SUCCEEDED)
    (he : b.execute = Status.SUCCEEDED)
    (hf : b.finalize = Status.SUCCEEDED)
    (hdeps : pipeline.dependencies_has_aborted = false)
    (hkind : pipeline.produced_code.kind = CodeKind.OPTIMIZED_FUNCTION)
    (hnospec : pipeline.is_function_context_specializing = false) :
    GetOptimizedCode fn ConcurrencyMode.kNotConcurrent flag_opt env pipeline
        b none
      = some { result := some pipeline.produced_code,
               function :=
                 { fn with
                     optimization_marker := none,
                     feedback_vector :=
                       { optimized_code := some pipeline.produced_code,
                         profiler_ticks := 0 } },
               job_constructed := true, job_retained := none,
               final_info := some
                 { osr_ast_id := none,
                   is_function_context_specializing :=
                     pipeline.is_function_context_specializing,
                   is_frame_specializing := pipeline.is_frame_specializing,
                   is_optimizing_from_bytecode :=
                     fn.shared.has_bytecode_array,
                   dependencies_has_aborted :=
                     pipeline.dependencies_has_aborted,
                   bailout_reason := BailoutReason.kNoReason,
                   code := pipeline.produced_code } } := by
  unfold GetOptimizedCode
  rw [clear_marker_eq]
  simp only [lookup_miss_of_slot_none { fn with optimization_marker := none }
    (by simpa using hmiss)]
  unfold GetOptimizedCodeNow CompilationJob.PrepareJob
    CompilationJob.ExecuteJob CompilationJob.FinalizeJob
    CompilationJob.UpdateState InsertCodeIntoOptimizedCodeCache
  by_cases hbc : fn.shared.has_bytecode_array <;>
    simp [hcompiled, hbreak, hdis, hopt, hfilter, hparse, hp, he, hf, hdeps,
      hkind, hnospec, hbc, FeedbackVector.SetOptimizedCode]

/-- C5: After a successful non-specialized, non-OSR synchronous optimizing
compile for a descriptor, every subsequent CompileOptimized request for any
closure sharing that descriptor (and its feedback vector) hits the
optimized code cache and installs the cached code without constructing a
new CompilationJob. -/
theorem cache_coherent_after_nonspecialized_compile (fn : JSFunction)
    (flag_opt : Bool) (env : DispatcherEnv) (pipeline : PipelineSpec)
    (b : BackendOutcome)
    (hnotopt : fn.code.kind ≠ CodeKind.OPTIMIZED_FUNCTION)
    (hmiss : fn.feedback_vector.optimized_code = none)
    (hcompiled : fn.shared.is_compiled = true)
    (hbreak : fn.shared.has_break_info = false)
    (hdis : fn.shared.optimization_disabled = false)
    (hopt : flag_opt = true)
    (hfilter : fn.shared.passes_turbo_filter = true)
    (hparse : b.parse_and_analyze_ok = true)
    (hp : b.prepare = Status.SUCCEEDED)
    (he : b.execute = Status.SUCCEEDED)
    (hf : b.finalize = Status.SUCCEEDED)
    (hdeps : pipeline.dependencies_has_aborted = false)
    (hkind : pipeline.produced_code.kind = CodeKind.OPTIMIZED_FUNCTION)
    (hnospec : pipeline.is_function_context_specializing = false)
    (hndeopt : pipeline.produced_code.marked_for_deoptimization = false) :
    (∃ r, Compiler.CompileOptimized fn ConcurrencyMode.kNotConcurrent
        flag_opt env pipeline b = some r) ∧
    ∀ ok (fn1 : JSFunction) (out1 : OptimizeOutcome),
      Compiler.CompileOptimized fn ConcurrencyMode.kNotConcurrent flag_opt
          env pipeline b = some (ok, fn1, out1) →
      fn1.feedback_vector.optimized_code = some pipeline.produced_code ∧
      fn1.code = pipeline.produced_code ∧
      ∀ (fn2 : JSFunction) (mode2 : ConcurrencyMode) (fo2 : Bool)
        (env2 : DispatcherEnv) (p2 : PipelineSpec) (b2 : BackendOutcome),
        fn2.shared = fn.shared →
        fn2.feedback_vector = fn1.feedback_vector →
        fn2.has_feedback_vector = true →
        fn2.code.kind ≠ CodeKind.OPTIMIZED_FUNCTION →
        Compiler.CompileOptimized fn2 mode2 fo2 env2 p2 b2
          = some (true,
              { fn2 with
                  optimization_marker := none,
                  code := pipeline.produced_code },
              { result := some pipeline.produced_code,
                function := { fn2 with optimization_marker := none },
                job_constructed := false, job_retained := none,
                final_info := none }) := by
  have hno : fn.IsOptimized = false := by
    simp [JSFunction.IsOptimized, hnotopt]
  have hsync := get_optimized_code_sync_success fn flag_opt env pipeline b
    hmiss hcompiled hbreak hdis hopt hfilter hparse hp he hf hdeps hkind
    hnospec
  have hmain : Compiler.CompileOptimized fn ConcurrencyMode.kNotConcurrent
      flag_opt env pipeline b
      = some (true,
          { fn with
              optimization_marker := none,
              feedback_vector :=
                { optimized_code := some pipeline.produced_code,
                  profiler_ticks := 0 },
              code := pipeline.produced_code },
          { result := some pipeline.produced_code,
            function :=
              { fn with
                  optimization_marker := none,
                  feedback_vector :=
                    { optimized_code := some pipeline.produced_code,
                      profiler_ticks := 0 } },
            job_constructed := true, job_retained := none,
            final_info := some
              { osr_ast_id := none,
                is_function_context_specializing :=
                  pipeline.is_function_context_specializing,
                is_frame_specializing := pipeline.is_frame_specializing,
                is_optimizing_from_bytecode := fn.shared.has_bytecode_array,
                dependencies_has_aborted := pipeline.dependencies_has_aborted,
                bailout_reason := BailoutReason.kNoReason,
                code := pipeline.produced_code } }) := by
    unfold Compiler.CompileOptimized
    rw [if_neg (by simp [hno]), hsync]
  refine ⟨⟨_, hmain⟩, ?_⟩
  intro ok fn1 out1 h
  rw [hmain] at h
  injection h with h
  simp only [Prod.mk.injEq] at h
  obtain ⟨hok, hfn, hout⟩ := h
  subst hok; subst hfn; subst hout
  refine ⟨rfl, rfl, ?_⟩
  intro fn2 mode2 fo2 env2 p2 b2 hsh2 hfv2 hhv2 hnotopt2
  have hslot2 : fn2.feedback_vector.optimized_code
      = some pipeline.produced_code := by
    rw [hfv2]
  exact compile_optimized_cache_hit fn2 mode2 fo2 env2 p2 b2
    pipeline.produced_code hhv2 hslot2 hndeopt hnotopt2

/-- Witness for C5: running the full synchronous pipeline on the sample
closure yields a result. -/
theorem cache_coherent_after_nonspecialized_compile_witness :
    ∃ r, Compiler.CompileOptimized sampleFunction
        ConcurrencyMode.kNotConcurrent true sampleEnv samplePipeline
        allOkBackend = some r :=
  (cache_coherent_after_nonspecialized_compile sampleFunction true sampleEnv
    samplePipeline allOkBackend (by decide) (by decide) (by decide)
    (by decide) (by decide) rfl (by decide) (by decide) rfl rfl rfl
    (by decide) (by decide) (by decide) (by decide)).1

end V8
